import Mathlib

/-!
Verification of the anki-language-gpt pipeline against its specification.

The Python sources (`translation_utils.py`, `openai_generator.py`,
`anki_language_gpt.py`) are shallowly embedded below: the pure data model and
the pure parts of each operation become Lean definitions; the network layer is
represented by explicit response records (`ChatResponse`, `ChatResponseMulti`)
handed to each query function, and the mutable token-usage counter of
`OpenAIGenerator` becomes explicit state passing of a `List Nat`.

Python string primitives used by the sources (`str.strip`, `str.split`,
`str.replace`, `str.join`, `str.endswith`) are modelled over `String.data` so
that every definition is executable and kernel-reducible.
-/

namespace AnkiGPT

/-- Python `str.strip(chars)`: drop the characters of `cs` from both ends. -/
def pyStrip (cs : List Char) (s : String) : String :=
  String.mk (((s.data.dropWhile (fun c => cs.contains c)).reverse.dropWhile
    (fun c => cs.contains c)).reverse)

/-- Python `str.strip()` with no argument: drop whitespace from both ends.
(Python strips a slightly larger unicode whitespace class; the inputs handled
here only involve spaces, tabs, carriage returns and newlines.) -/
def pyTrim (s : String) : String :=
  String.mk (((s.data.dropWhile Char.isWhitespace).reverse.dropWhile
    Char.isWhitespace).reverse)

/-- Python `str.split(sep)` for a one-character separator, on `List Char`:
consecutive separators produce empty groups, and the empty string yields one
empty group, exactly as in Python. -/
def splitChar (sep : Char) : List Char → List (List Char)
  | [] => [[]]
  | c :: rest =>
    match splitChar sep rest with
    | [] => [[]]
    | grp :: rest' => if c = sep then [] :: grp :: rest' else (c :: grp) :: rest'

/-- Python `sep.join(xs)`. -/
def joinSep (sep : String) : List String → String
  | [] => ""
  | [x] => x
  | x :: y :: xs => x ++ sep ++ joinSep sep (y :: xs)

/-- Python `s.replace(pat, rep)`, fuel-indexed so the recursion is structural:
scan left to right, replacing non-overlapping occurrences of `pat`. The fuel is
instantiated with the length of the scanned list, which always suffices since
each step consumes at least one character. Python's exotic empty-pattern
behaviour (interleaving `rep` everywhere) is not modelled: an empty pattern
leaves the string unchanged, which is adequate because the patterns used by the
program are query words and the quote character. -/
def replaceAllAux (pat rep : List Char) : Nat → List Char → List Char
  | _, [] => []
  | 0, s => s
  | fuel + 1, c :: rest =>
    if pat ≠ [] ∧ (c :: rest).take pat.length = pat then
      rep ++ replaceAllAux pat rep fuel (rest.drop (pat.length - 1))
    else
      c :: replaceAllAux pat rep fuel rest

/-- Python `s.replace(pat, rep)` on `String`. -/
def replaceAll (s pat rep : String) : String :=
  String.mk (replaceAllAux pat.data rep.data s.data.length s.data)

/-- Python `s.endswith(suffix)`. -/
def strEndsWith (s sfx : String) : Bool :=
  sfx.data.isSuffixOf s.data

/-! ## Data model (`translation_utils.py`) -/

/-- Enum `OutputFormat` of `translation_utils.py`. -/
inductive OutputFormat where
  | sheets
  | anki
  | excel
deriving DecidableEq

/-- Dataclass `OutputGroup`: an output file paired with its format. -/
structure OutputGroup where
  output_file : String
  output_format : OutputFormat
deriving DecidableEq

/-- Dataclass `ExampleSentence`: a foreign-language sentence and its English
translation. -/
structure ExampleSentence where
  foreign_lang : String
  english : String
deriving DecidableEq

/-- Dataclass `SearchResult`: the GPT-augmented record for one word. -/
structure SearchResult where
  foreign_lang_word : String
  romanization : Option String
  english_def : String
  example_sentences : List ExampleSentence
  explanation : String
deriving DecidableEq

/-- Function `format_example_sentences` of `translation_utils.py`: bold the
query word in each example sentence according to the output format, and for
Excel additionally double embedded quotes and wrap the foreign half in
quotes. -/
def format_example_sentences (search_result : SearchResult)
    (output_format : OutputFormat) : SearchResult :=
  let word := search_result.foreign_lang_word
  let fmtSentence := fun (sentence : ExampleSentence) =>
    let foreign_lang_example :=
      if output_format = OutputFormat.excel ∨ output_format = OutputFormat.sheets then
        replaceAll sentence.foreign_lang word ("**" ++ word ++ "**")
      else
        replaceAll sentence.foreign_lang word ("<b>**" ++ word ++ "**</b>")
    let foreign_lang_example :=
      if output_format = OutputFormat.excel then
        "\"" ++ replaceAll foreign_lang_example "\"" "\"\"" ++ "\""
      else
        foreign_lang_example
    { sentence with foreign_lang := foreign_lang_example }
  { search_result with
    example_sentences := search_result.example_sentences.map fmtSentence }

/-- The `RuntimeError`s raised by `FlashCard.to_df_row` and
`FlashCard.write_csv_list`: calling the wrong serializer for the card's output
format, or a mismatch between the card's word and the search result's word. -/
inductive FormatError where
  | wrongFormat : String → FormatError
  | consistencyViolation : String → String → FormatError
deriving DecidableEq

/-- Dataclass `FlashCard` of `translation_utils.py`. -/
structure FlashCard where
  foreign_lang_word : String
  search_result : SearchResult
  use_romanization : Bool
  output_format : OutputFormat
deriving DecidableEq

/-- Method `FlashCard.to_df_row`: the single DataFrame row as a list of
(column name, cell) pairs; `none` stands for pandas `None`/`NaN` in the
romanization column. Raising `RuntimeError` becomes returning `.error`. -/
def FlashCard.to_df_row (fc : FlashCard) :
    Except FormatError (List (String × Option String)) :=
  if fc.output_format ≠ OutputFormat.excel then
    .error (.wrongFormat "to_df_row should only be called for Excel output format.")
  else if fc.foreign_lang_word ≠ fc.search_result.foreign_lang_word then
    .error (.consistencyViolation fc.foreign_lang_word
      fc.search_result.foreign_lang_word)
  else
    let new_line := "\n"
    let sentences := fc.search_result.example_sentences.map
      (fun s => s.foreign_lang ++ new_line ++ s.english)
    let joined := joinSep (new_line ++ new_line) sentences
    if fc.use_romanization then
      .ok [("Word", some fc.foreign_lang_word),
           ("Romanization", fc.search_result.romanization),
           ("Translation", some fc.search_result.english_def),
           ("Example Sentences", some joined),
           ("Explanation", some fc.search_result.explanation)]
    else
      .ok [("Word", some fc.foreign_lang_word),
           ("Translation", some fc.search_result.english_def),
           ("Example Sentences", some joined),
           ("Explanation", some fc.search_result.explanation)]

/-- Method `FlashCard.write_csv_list`: the row handed to `csv.writer.writerow`,
as a list of cells; `none` stands for Python `None` in the romanization slot.
Raising `RuntimeError` becomes returning `.error`. -/
def FlashCard.write_csv_list (fc : FlashCard) :
    Except FormatError (List (Option String)) :=
  if fc.output_format ≠ OutputFormat.sheets ∧ fc.output_format ≠ OutputFormat.anki then
    .error (.wrongFormat "write_csv_list should only be called for Sheets or Anki output format.")
  else if fc.foreign_lang_word ≠ fc.search_result.foreign_lang_word then
    .error (.consistencyViolation fc.foreign_lang_word
      fc.search_result.foreign_lang_word)
  else
    let new_line := if fc.output_format = OutputFormat.anki then "\n<br>" else "\n"
    let sentences := fc.search_result.example_sentences.map
      (fun s => s.foreign_lang ++ new_line ++ s.english)
    if fc.use_romanization then
      .ok [some fc.foreign_lang_word,
           fc.search_result.romanization,
           some fc.search_result.english_def,
           some (joinSep (new_line ++ new_line) sentences),
           some fc.search_result.explanation]
    else
      .ok [some fc.foreign_lang_word,
           some fc.search_result.english_def,
           some (joinSep (new_line ++ new_line) sentences),
           some fc.search_result.explanation]

/-- The serializer `runner` of `anki_language_gpt.py` actually invokes for a
card: `write_csv_list` (via `generate_csv`) for the Anki and Sheets formats,
`to_df_row` (via `generate_xlsx`) for Excel. The Excel row is projected to its
cells so both branches produce a row of cells. -/
def formatCard (fc : FlashCard) : Except FormatError (List (Option String)) :=
  if fc.output_format = OutputFormat.anki ∨ fc.output_format = OutputFormat.sheets then
    fc.write_csv_list
  else
    fc.to_df_row.map (fun row => row.map Prod.snd)

/-! ## Remote augmentation client (`openai_generator.py`)

Each of the four query methods of `OpenAIGenerator` posts one request and then
processes the response. The response is embedded as an explicit record (its
HTTP status, the `usage.total_tokens` field, and the message content of the
completion choices), the mutable `self.tokens` list becomes an explicit
argument threaded through, and `raise RuntimeError` becomes `.error`. Each
function returns the updated token counter together with the outcome, so that
the counter's value on the failure path is part of the model. -/

/-- Constant `STRIP_CHARACTERS` of `openai_generator.py`: the characters
stripped from language-detection responses (whitespace plus punctuation). -/
def STRIP_CHARACTERS : List Char :=
  [' ', '\n', '\t', '\'', '"', '.', ';', ':', '!', '?']

/-- The `RuntimeError`s raised by the four per-word queries on a non-200
response, tagged by the query that failed. -/
inductive RemoteServiceError where
  | romanization
  | translation
  | sampleSentences
  | explanation
deriving DecidableEq

/-- A chat-completion response carrying a single choice: its HTTP status,
`usage.total_tokens`, and `choices[0].message.content`. -/
structure ChatResponse where
  status : Nat
  total_tokens : Nat
  content : String
deriving DecidableEq

/-- A chat-completion response carrying several choices (used by
`generate_sample_sentences`, which requests `n = nsentences * 2` choices):
its HTTP status, `usage.total_tokens`, and the `message.content` of each
choice in order. -/
structure ChatResponseMulti where
  status : Nat
  total_tokens : Nat
  contents : List String
deriving DecidableEq

/-- Method `OpenAIGenerator.query_romanization`: on a non-200 status raise;
otherwise append the token count and return the first choice's content
stripped of surrounding spaces and newlines (`.strip(' \n')`). -/
def query_romanization (tokens : List Nat) (resp : ChatResponse) :
    List Nat × Except RemoteServiceError String :=
  if resp.status ≠ 200 then
    (tokens, .error .romanization)
  else
    (tokens ++ [resp.total_tokens], .ok (pyStrip [' ', '\n'] resp.content))

/-- Method `OpenAIGenerator.query_translation`: same response handling as
`query_romanization`. -/
def query_translation (tokens : List Nat) (resp : ChatResponse) :
    List Nat × Except RemoteServiceError String :=
  if resp.status ≠ 200 then
    (tokens, .error .translation)
  else
    (tokens ++ [resp.total_tokens], .ok (pyStrip [' ', '\n'] resp.content))

/-- Method `OpenAIGenerator.generate_intuitive_explanation`: same response
handling as `query_romanization`. -/
def generate_intuitive_explanation (tokens : List Nat) (resp : ChatResponse) :
    List Nat × Except RemoteServiceError String :=
  if resp.status ≠ 200 then
    (tokens, .error .explanation)
  else
    (tokens ++ [resp.total_tokens], .ok (pyStrip [' ', '\n'] resp.content))

/-- The per-completion parse inside `generate_sample_sentences`: strip the raw
content (`.strip(' \n')` applied at extraction), split on newlines, strip each
segment and drop blank segments, and accept the completion only when exactly
two segments remain (foreign line, then English line). -/
def parseCompletion (content : String) : Option ExampleSentence :=
  let stripped := pyStrip [' ', '\n'] content
  let parts := ((splitChar '\n' stripped.data).map
    (fun l => pyTrim (String.mk l))).filter (fun s => s ≠ "")
  match parts with
  | [f, e] => some ⟨f, e⟩
  | _ => none

/-- The accumulation loop of `generate_sample_sentences`: walk the completions
in order, skip the ones `parseCompletion` rejects, skip any whose foreign half
was already seen (`prev_sentences`), and collect the rest in order. -/
def collectSentences (prev : List String) : List String → List ExampleSentence
  | [] => []
  | c :: cs =>
    match parseCompletion c with
    | none => collectSentences prev cs
    | some es =>
      if es.foreign_lang ∈ prev then
        collectSentences prev cs
      else
        es :: collectSentences (es.foreign_lang :: prev) cs

/-- Method `OpenAIGenerator.generate_sample_sentences`: on a non-200 status
raise; otherwise append the token count, parse and deduplicate the choices,
and truncate to the first `nsentences` survivors. -/
def generate_sample_sentences (tokens : List Nat) (resp : ChatResponseMulti)
    (nsentences : Nat) :
    List Nat × Except RemoteServiceError (List ExampleSentence) :=
  if resp.status ≠ 200 then
    (tokens, .error .sampleSentences)
  else
    (tokens ++ [resp.total_tokens],
      .ok ((collectSentences [] resp.contents).take nsentences))

/-! ## CLI orchestration (`anki_language_gpt.py`) -/

/-- The per-line cleanup in `runner`: `word.strip('\n \t\'"')`. -/
def stripWord (w : String) : String :=
  pyStrip ['\n', ' ', '\t', '\'', '"'] w

/-- The input-reading loop of `runner`: strip each line, skip blank results,
skip words already seen (`unique_words`, which triggers a logged warning in
the source), and collect the rest in order as `words_to_search`. -/
def processLines (seen : List String) : List String → List String
  | [] => []
  | l :: ls =>
    let w := stripWord l
    if w = "" then processLines seen ls
    else if w ∈ seen then processLines seen ls
    else w :: processLines (w :: seen) ls

/-- The sequence of words `runner` dispatches to the augmentation pipeline,
as a function of the input file's lines. -/
def words_to_search (lines : List String) : List String :=
  processLines [] lines

/-- First-occurrence deduplication: keep each string the first time it
appears and drop its later repetitions. This is the specification-side
description of the input contract ("duplicate words after trimming are
dropped, first occurrence wins") against which `words_to_search` is checked. -/
def dedupFirst : List String → List String
  | [] => []
  | x :: xs => x :: dedupFirst (xs.filter (fun y => y ≠ x))
termination_by l => l.length
decreasing_by
  simp only [List.length_cons]
  exact Nat.lt_succ_of_le (List.length_filter_le _ _)

/-- The `ValueError`s raised by `main` when an output file's extension does
not match its output format. -/
inductive ConfigError where
  | xlsxRequired : String → ConfigError
  | csvRequired : String → ConfigError
deriving DecidableEq

/-- The body of `main`'s validation loop for one output group: Excel requires
a `.xlsx` file, Anki and Sheets require a `.csv` file. -/
def validateOutputGroup (g : OutputGroup) : Except ConfigError Unit :=
  if g.output_format = OutputFormat.excel ∧ strEndsWith g.output_file ".xlsx" = false then
    .error (.xlsxRequired g.output_file)
  else if (g.output_format = OutputFormat.anki ∨ g.output_format = OutputFormat.sheets)
      ∧ strEndsWith g.output_file ".csv" = false then
    .error (.csvRequired g.output_file)
  else
    .ok ()

/-- The validation loop of `main` over all requested output groups, raising at
the first violating group. In the source this loop runs before `asyncio.run`
starts `runner`, hence before any remote call is issued. -/
def validate_output_groups : List OutputGroup → Except ConfigError Unit
  | [] => .ok ()
  | g :: gs =>
    match validateOutputGroup g with
    | .error e => .error e
    | .ok _ => validate_output_groups gs

/-- The construction of `output_groups` in `main`:
`zip(output_files, output_formats)` mapped through the `OutputGroup`
constructor, which silently truncates to the shorter of the two lists. -/
def mkOutputGroups (output_files : List String)
    (output_formats : List OutputFormat) : List OutputGroup :=
  List.zipWith OutputGroup.mk output_files output_formats

/-- Whether an `Except` value is a success; Python terms: whether the call
returned instead of raising. -/
def isOkExcept {ε α : Type} : Except ε α → Bool
  | .ok _ => true
  | .error _ => false

/-- The output-file/output-format pairing condition stated by the spec:
the tabular (Excel) target requires a workbook (`.xlsx`) file name and the
text (Anki/Sheets) targets require a delimited-text (`.csv`) file name. -/
def conformingPairing (g : OutputGroup) : Prop :=
  (g.output_format = OutputFormat.excel → strEndsWith g.output_file ".xlsx" = true) ∧
  ((g.output_format = OutputFormat.anki ∨ g.output_format = OutputFormat.sheets) →
    strEndsWith g.output_file ".csv" = true)

/-! ## Theorems -/

/-- Reassociation of the closing quote with the newline that follows it, used
to normalise the rendered Excel cell. -/
theorem quote_newline_assoc (e : String) : "\"" ++ ("\n" ++ e) = "\"\n" ++ e := by
  rw [← String.append_assoc]
  rfl

/-- Claim C1 counterexample: for the spec's own example
(word `mesa`, the single sentence pair `la mesa es grande` / `the table is
big`, tabular target), the code renders the example-sentence cell as
`"la **mesa** es grande"` followed by a newline and the unquoted English
half: the quote-wrapping covers only the foreign-language half, not the
whole cell value as the claim states. -/
theorem c1_tabular_cell_counterexample :
    FlashCard.to_df_row ⟨"mesa",
        format_example_sentences
          ⟨"mesa", none, "table",
            [⟨"la mesa es grande", "the table is big"⟩], "expl"⟩
          OutputFormat.excel,
        false, OutputFormat.excel⟩
      = .ok [("Word", some "mesa"), ("Translation", some "table"),
             ("Example Sentences",
               some "\"la **mesa** es grande\"\nthe table is big"),
             ("Explanation", some "expl")] ∧
    ("\"la **mesa** es grande\"\nthe table is big" : String)
      ≠ "\"la **mesa** es grande\nthe table is big\"" :=
  ⟨rfl, by decide⟩

/-- Claim C1 (amended): for the tabular (Excel) target, the rendered
example-sentence cell joins, with plain newlines inside a pair and double
newlines between pairs, sentence pairs in which the foreign-language half —
and only the foreign-language half — has the query word bolded, its embedded
quotes doubled, and is then wrapped in a pair of quotes; the English half is
embedded verbatim. -/
theorem c1_tabular_cell_quoting (sr : SearchResult) (b : Bool) :
    FlashCard.to_df_row ⟨sr.foreign_lang_word,
        format_example_sentences sr OutputFormat.excel, b, OutputFormat.excel⟩
      = .ok (
        let cell := joinSep "\n\n" (sr.example_sentences.map (fun s =>
          "\"" ++ replaceAll
              (replaceAll s.foreign_lang sr.foreign_lang_word
                ("**" ++ sr.foreign_lang_word ++ "**"))
              "\"" "\"\"" ++ "\"" ++ "\n" ++ s.english))
        if b then
          [("Word", some sr.foreign_lang_word),
           ("Romanization", sr.romanization),
           ("Translation", some sr.english_def),
           ("Example Sentences", some cell),
           ("Explanation", some sr.explanation)]
        else
          [("Word", some sr.foreign_lang_word),
           ("Translation", some sr.english_def),
           ("Example Sentences", some cell),
           ("Explanation", some sr.explanation)]) := by
  cases b <;>
    simp [FlashCard.to_df_row, format_example_sentences, List.map_map,
      Function.comp_def, String.append_assoc, quote_newline_assoc]

/-- Claim C2: for the rich-markup (Anki) target, every literal occurrence of
the query word in the foreign-language half is wrapped as
`<b>**word**</b>`, a sentence pair is joined with the Anki line-break token
`\n<br>` in place of the plain `\n` of the other targets, and consecutive
pairs are separated by that token doubled; concretely, the mesa example
renders as `la <b>**mesa**</b> es grande\n<br>the table is big`. -/
theorem c2_anki_markup (sr : SearchResult) (b : Bool) :
    (FlashCard.write_csv_list ⟨sr.foreign_lang_word,
        format_example_sentences sr OutputFormat.anki, b, OutputFormat.anki⟩
      = .ok (
        let cell := joinSep "\n<br>\n<br>" (sr.example_sentences.map (fun s =>
          replaceAll s.foreign_lang sr.foreign_lang_word
              ("<b>**" ++ sr.foreign_lang_word ++ "**</b>")
            ++ "\n<br>" ++ s.english))
        if b then
          [some sr.foreign_lang_word, sr.romanization, some sr.english_def,
           some cell, some sr.explanation]
        else
          [some sr.foreign_lang_word, some sr.english_def, some cell,
           some sr.explanation])) ∧
    FlashCard.write_csv_list ⟨"mesa",
        format_example_sentences
          ⟨"mesa", none, "table",
            [⟨"la mesa es grande", "the table is big"⟩], "expl"⟩
          OutputFormat.anki,
        false, OutputFormat.anki⟩
      = .ok [some "mesa", some "table",
             some "la <b>**mesa**</b> es grande\n<br>the table is big",
             some "expl"] := by
  refine ⟨?_, rfl⟩
  cases b <;>
    simp [FlashCard.write_csv_list, format_example_sentences, List.map_map,
      Function.comp_def, String.append_assoc]

/-- Every sentence collected by the deduplication loop has a foreign half
that was not among the already-seen foreign halves. -/
theorem collect_foreign_fresh (cs : List String) :
    ∀ (prev : List String) (x : ExampleSentence),
      x ∈ collectSentences prev cs → x.foreign_lang ∉ prev := by
  induction cs with
  | nil => intro prev x hx; simp [collectSentences] at hx
  | cons c cs ih =>
    intro prev x hx
    cases hp : parseCompletion c with
    | none =>
      simp only [collectSentences, hp] at hx
      exact ih prev x hx
    | some es =>
      simp only [collectSentences, hp] at hx
      by_cases hm : es.foreign_lang ∈ prev
      · rw [if_pos hm] at hx
        exact ih prev x hx
      · rw [if_neg hm] at hx
        rcases List.mem_cons.mp hx with h | h
        · subst h; exact hm
        · intro hcontra
          exact ih _ x h (List.mem_cons_of_mem _ hcontra)

/-- The deduplication loop never emits two sentences with the same foreign
half. -/
theorem collect_pairwise_foreign (cs : List String) :
    ∀ prev : List String,
      (collectSentences prev cs).Pairwise
        (fun a b => a.foreign_lang ≠ b.foreign_lang) := by
  induction cs with
  | nil => intro prev; simp [collectSentences]
  | cons c cs ih =>
    intro prev
    cases hp : parseCompletion c with
    | none => simp only [collectSentences, hp]; exact ih prev
    | some es =>
      simp only [collectSentences, hp]
      by_cases hm : es.foreign_lang ∈ prev
      · rw [if_pos hm]; exact ih prev
      · rw [if_neg hm]
        refine List.Pairwise.cons ?_ (ih _)
        intro b hb heq
        exact collect_foreign_fresh cs _ b hb (heq ▸ List.mem_cons_self _ _)

/-- Claim C3: the example-sentence fetch returns at most `nsentences`
sentences and never two with the same foreign-language half (the loop keeps
the first occurrence of each foreign half); a completion rejected by the
per-completion parser contributes nothing to the result, and in particular
the raw completions `"  \n\n"` and `"only one line"` are rejected.
A shorter-than-requested result is an ordinary `.ok` value, not an error. -/
theorem c3_sentence_fetch_guarantees :
    (∀ (tokens : List Nat) (resp : ChatResponseMulti) (n : Nat)
        (out : List ExampleSentence),
      (generate_sample_sentences tokens resp n).2 = .ok out →
        out.length ≤ n ∧
          out.Pairwise (fun a b => a.foreign_lang ≠ b.foreign_lang)) ∧
    (∀ c : String, parseCompletion c = none →
      ∀ (prev cs : List String),
        collectSentences prev (c :: cs) = collectSentences prev cs) ∧
    parseCompletion "  \n\n" = none ∧
    parseCompletion "only one line" = none := by
  refine ⟨?_, ?_, rfl, rfl⟩
  · intro tokens resp n out hout
    by_cases hs : resp.status = 200
    · simp only [generate_sample_sentences, hs, ne_eq, not_true_eq_false,
        if_false, Except.ok.injEq] at hout
      subst hout
      constructor
      · exact List.length_take_le n _
      · exact (collect_pairwise_foreign resp.contents []).sublist
          (List.take_sublist n _)
    · simp [generate_sample_sentences, hs] at hout
  · intro c hc prev cs
    simp [collectSentences, hc]

/-- Merging two successive filters over the word list: keeping the words
outside `seen` and then the words different from `w` is keeping the words
outside `w :: seen`. -/
theorem filter_notMem_cons (w : String) (seen l : List String) :
    (l.filter (fun a => a ∉ seen)).filter (fun a => a ≠ w)
      = l.filter (fun a => a ∉ w :: seen) := by
  induction l with
  | nil => rfl
  | cons x xs ih =>
    by_cases h2 : x = w
    · subst h2
      by_cases h1 : x ∈ seen <;> simp [List.filter_cons, h1, ih]
    · by_cases h1 : x ∈ seen <;>
        simp [List.filter_cons, h1, h2, List.mem_cons, ih]

/-- The input-reading loop of `runner`, run with an arbitrary set of
already-seen words, equals first-occurrence deduplication of the stripped
non-blank unseen lines. -/
theorem processLines_eq_dedupFirst (ls : List String) :
    ∀ seen : List String,
      processLines seen ls
        = dedupFirst (((ls.map stripWord).filter (fun w => w ≠ "")).filter
            (fun w => w ∉ seen)) := by
  induction ls with
  | nil => intro seen; simp [processLines, dedupFirst]
  | cons l ls ih =>
    intro seen
    by_cases hw : stripWord l = ""
    · simp only [processLines, hw, if_pos rfl, List.map_cons, List.filter_cons]
      simp [hw, ih seen]
    · by_cases hm : stripWord l ∈ seen
      · simp only [processLines]
        rw [if_neg hw, if_pos hm]
        simp [List.filter_cons, hw, hm, ih seen]
      · simp only [processLines]
        rw [if_neg hw, if_neg hm]
        have : (((l :: ls).map stripWord).filter (fun w => w ≠ "")).filter
            (fun w => w ∉ seen)
          = stripWord l ::
            (((ls.map stripWord).filter (fun w => w ≠ "")).filter
              (fun w => w ∉ seen)) := by
          simp [List.filter_cons, hw, hm]
        rw [this, dedupFirst, filter_notMem_cons, ih (stripWord l :: seen)]

/-- Claim C4: the sequence of words `runner` dispatches to the pipeline is
exactly the first-occurrence deduplication of the trimmed (surrounding
whitespace and quote characters removed, per `strip('\n \t\'"')`) non-blank
input lines, in first-seen order: blank lines are skipped and a line whose
trimmed form equals an earlier trimmed word is dropped. -/
theorem c4_dispatched_words (lines : List String) :
    words_to_search lines
      = dedupFirst ((lines.map stripWord).filter (fun w => w ≠ "")) := by
  rw [words_to_search, processLines_eq_dedupFirst lines []]
  congr 1
  rw [List.filter_eq_self]
  intro a _
  simp

/-- Claim C5: formatting a flashcard through the serializer `runner` selects
for its format raises the word-consistency error exactly when the card's
word differs from the word embedded in its search result; when they agree no
error of any kind is raised (a row is produced). -/
theorem c5_word_consistency (fc : FlashCard) :
    (fc.foreign_lang_word ≠ fc.search_result.foreign_lang_word →
      formatCard fc = .error (.consistencyViolation fc.foreign_lang_word
        fc.search_result.foreign_lang_word)) ∧
    (fc.foreign_lang_word = fc.search_result.foreign_lang_word →
      isOkExcept (formatCard fc) = true) := by
  constructor
  · intro hne
    cases hf : fc.output_format <;>
      simp [formatCard, FlashCard.write_csv_list, FlashCard.to_df_row,
        Except.map, hf, hne]
  · intro heq
    cases hf : fc.output_format <;>
      cases hr : fc.use_romanization <;>
        simp [formatCard, FlashCard.write_csv_list, FlashCard.to_df_row,
          isOkExcept, Except.map, hf, hr, heq]

/-- Validating one output group succeeds exactly when its file extension
conforms to its output format. -/
theorem validateOutputGroup_ok_iff (g : OutputGroup) :
    validateOutputGroup g = .ok () ↔ conformingPairing g := by
  rcases g with ⟨file, fmt⟩
  cases fmt <;>
    cases hx : strEndsWith file ".xlsx" <;>
      cases hc : strEndsWith file ".csv" <;>
        simp [validateOutputGroup, conformingPairing, hx, hc]

/-- Claim C6: the output-group validation loop `main` runs before starting
`runner` (and hence before any remote call) succeeds exactly when every
requested group pairs the Excel format with a `.xlsx` file name and the
Anki/Sheets formats with a `.csv` file name; any violating group makes it
raise a configuration error instead. -/
theorem c6_output_pairing_validation (gs : List OutputGroup) :
    validate_output_groups gs = .ok () ↔ ∀ g ∈ gs, conformingPairing g := by
  induction gs with
  | nil => simp [validate_output_groups]
  | cons g gs ih =>
    simp only [validate_output_groups, List.forall_mem_cons, ← ih]
    cases hv : validateOutputGroup g with
    | error e =>
      have hng : ¬ conformingPairing g := by
        intro hcf
        rw [(validateOutputGroup_ok_iff g).mpr hcf] at hv
        cases hv
      simp [hng]
    | ok u =>
      cases u
      have hg := (validateOutputGroup_ok_iff g).mp hv
      simp [hg]

/-- Claim C7 counterexample: for a successful response whose content is
`pinyin.`, `query_romanization` returns `pinyin.` unchanged — it strips only
surrounding spaces and newlines (`.strip(' \n')`), not the
whitespace-and-punctuation set (`STRIP_CHARACTERS`) the claim describes,
which would give `pinyin`. -/
theorem c7_strip_counterexample :
    (query_romanization [] ⟨200, 10, "pinyin."⟩).2 = .ok "pinyin." ∧
    pyStrip STRIP_CHARACTERS "pinyin." = "pinyin" ∧
    ("pinyin." : String) ≠ "pinyin" :=
  ⟨rfl, by decide, by decide⟩

/-- Claim C7 (amended): on a successful response, `query_romanization`
returns the raw response content with surrounding space and newline
characters stripped (only `' '` and `'\n'`; tabs and punctuation are kept). -/
theorem c7_romanization_strip (tokens : List Nat) (resp : ChatResponse)
    (h : resp.status = 200) :
    (query_romanization tokens resp).2 = .ok (pyStrip [' ', '\n'] resp.content) := by
  simp [query_romanization, h]

/-- Witness for the amended claim C7 at a concrete successful response. -/
theorem c7_romanization_strip_witness :
    (query_romanization [] ⟨200, 5, " pinyin \n"⟩).2 = .ok "pinyin" := by
  rw [c7_romanization_strip [] ⟨200, 5, " pinyin \n"⟩ rfl]
  rfl

/-- Claim C8: each of the four per-word queries fails exactly when the
response status is not 200; on success it appends exactly one entry (the
response's token count) to the usage counter, and on failure it leaves the
counter unchanged and produces no result. -/
theorem c8_usage_accounting (tokens : List Nat) (resp : ChatResponse)
    (mresp : ChatResponseMulti) (n : Nat) :
    ((query_romanization tokens resp).1
        = (if resp.status = 200 then tokens ++ [resp.total_tokens] else tokens) ∧
      isOkExcept (query_romanization tokens resp).2 = decide (resp.status = 200)) ∧
    ((query_translation tokens resp).1
        = (if resp.status = 200 then tokens ++ [resp.total_tokens] else tokens) ∧
      isOkExcept (query_translation tokens resp).2 = decide (resp.status = 200)) ∧
    ((generate_intuitive_explanation tokens resp).1
        = (if resp.status = 200 then tokens ++ [resp.total_tokens] else tokens) ∧
      isOkExcept (generate_intuitive_explanation tokens resp).2
        = decide (resp.status = 200)) ∧
    ((generate_sample_sentences tokens mresp n).1
        = (if mresp.status = 200 then tokens ++ [mresp.total_tokens] else tokens) ∧
      isOkExcept (generate_sample_sentences tokens mresp n).2
        = decide (mresp.status = 200)) := by
  by_cases h : resp.status = 200 <;> by_cases hm : mresp.status = 200 <;>
    simp [query_romanization, query_translation, generate_intuitive_explanation,
      generate_sample_sentences, isOkExcept, h, hm]

/-- Element lookup in the zipped output groups: position `i` holds the pair
of the `i`-th file and the `i`-th format, and is absent as soon as either
list is exhausted. -/
theorem mkOutputGroups_getElem? (fs : List String) :
    ∀ (ts : List OutputFormat) (i : Nat),
      (mkOutputGroups fs ts)[i]?
        = (fs[i]?).bind (fun f => (ts[i]?).map (fun t => OutputGroup.mk f t)) := by
  induction fs with
  | nil => intro ts i; simp [mkOutputGroups]
  | cons f fs ih =>
    intro ts i
    cases ts with
    | nil => simp [mkOutputGroups]
    | cons t ts =>
      cases i with
      | zero => simp [mkOutputGroups]
      | succ j => simpa [mkOutputGroups] using ih ts j

/-- Truncating the file list to the number of formats does not change the
constructed output groups. -/
theorem mkOutputGroups_take_left (fs : List String) :
    ∀ ts : List OutputFormat,
      mkOutputGroups (fs.take ts.length) ts = mkOutputGroups fs ts := by
  induction fs with
  | nil => intro ts; simp [mkOutputGroups]
  | cons f fs ih =>
    intro ts
    cases ts with
    | nil => simp [mkOutputGroups]
    | cons t ts =>
      simpa [mkOutputGroups, List.zipWith_cons_cons] using ih ts

/-- Truncating the format list to the number of files does not change the
constructed output groups. -/
theorem mkOutputGroups_take_right (fs : List String) :
    ∀ ts : List OutputFormat,
      mkOutputGroups fs (ts.take fs.length) = mkOutputGroups fs ts := by
  induction fs with
  | nil => intro ts; simp [mkOutputGroups]
  | cons f fs ih =>
    intro ts
    cases ts with
    | nil => simp [mkOutputGroups]
    | cons t ts =>
      simpa [mkOutputGroups, List.zipWith_cons_cons] using ih ts

/-- Claim C10: `main` pairs the supplied output files with the supplied
output formats elementwise up to the shorter length — the constructed group
list has `min` length, truncating either argument to the other's length
changes nothing (the excess entries are silently discarded, no error is
raised), and position `i` pairs the `i`-th file with the `i`-th format. -/
theorem c10_zip_truncates (fs : List String) (ts : List OutputFormat) :
    (mkOutputGroups fs ts).length = min fs.length ts.length ∧
    mkOutputGroups (fs.take ts.length) ts = mkOutputGroups fs ts ∧
    mkOutputGroups fs (ts.take fs.length) = mkOutputGroups fs ts ∧
    (∀ i : Nat, (mkOutputGroups fs ts)[i]?
      = (fs[i]?).bind (fun f => (ts[i]?).map (fun t => OutputGroup.mk f t))) :=
  ⟨List.length_zipWith _ _ _, mkOutputGroups_take_left fs ts,
    mkOutputGroups_take_right fs ts, mkOutputGroups_getElem? fs ts⟩

end AnkiGPT
